import Mathlib

/-!
Verification development for the face-recognition attendance system
(`app.py`).  The session-controller loop of `main`, the cooldown gate
`can_mark_attendance` and the store writer `update_attendance` are embedded
shallowly below; per-frame camera input is a list of detected faces, each
carrying the matcher outputs (`compare_faces` flags and `face_distance`
values) for the gallery, the record store is a partial map from student id
to raw records, and wall-clock time is a natural number of seconds passed
in once per tick.
-/

/-- Timestamps are handled as strings, as in the Python code.  `strptime`
with format `%Y-%m-%d %H:%M:%S` is embedded by `parseTimestamp` below and
`strftime` by `formatTimestamp`; wall-clock instants are seconds elapsed
since 0001-01-01 00:00:00 of the proleptic Gregorian calendar. -/
def isLeapYear (y : Nat) : Bool :=
  (y % 4 == 0 && y % 100 != 0) || y % 400 == 0

/-- Length of a month (1..12) of year `y`. -/
def daysInMonth (y m : Nat) : Nat :=
  if m = 1 ∨ m = 3 ∨ m = 5 ∨ m = 7 ∨ m = 8 ∨ m = 10 ∨ m = 12 then 31
  else if m = 4 ∨ m = 6 ∨ m = 9 ∨ m = 11 then 30
  else if isLeapYear y then 29 else 28

/-- Days of all years before year `y` (proleptic Gregorian, `y ≥ 1`). -/
def daysBeforeYear (y : Nat) : Nat :=
  365 * (y - 1) + (y - 1) / 4 - (y - 1) / 100 + (y - 1) / 400

/-- Days of the months of year `y` strictly before month `m`. -/
def daysBeforeMonth (y m : Nat) : Nat :=
  (List.range (m - 1)).foldl (fun acc i => acc + daysInMonth y (i + 1)) 0

/-- Seconds since 0001-01-01 00:00:00 of the instant y-mo-d hh:mi:ss. -/
def epochOfDate (y mo d hh mi ss : Nat) : Nat :=
  (daysBeforeYear y + daysBeforeMonth y mo + (d - 1)) * 86400
    + hh * 3600 + mi * 60 + ss

/-- Numeric value of a decimal digit character. -/
def digitVal (c : Char) : Nat := c.toNat - 48

/-- `datetime.strptime(s, "%Y-%m-%d %H:%M:%S")`: `some` of the parsed
instant for a valid zero-padded timestamp string, `none` when parsing
raises (the `except` branch of `can_mark_attendance`). -/
def parseTimestamp (s : String) : Option Nat :=
  match s.data with
  | [y1, y2, y3, y4, h1, o1, o2, h2, d1, d2, sp, a1, a2, c1, b1, b2, c2, s1, s2] =>
    if y1.isDigit && y2.isDigit && y3.isDigit && y4.isDigit
        && o1.isDigit && o2.isDigit && d1.isDigit && d2.isDigit
        && a1.isDigit && a2.isDigit && b1.isDigit && b2.isDigit
        && s1.isDigit && s2.isDigit
        && h1 == '-' && h2 == '-' && sp == ' ' && c1 == ':' && c2 == ':' then
      let y := ((digitVal y1 * 10 + digitVal y2) * 10 + digitVal y3) * 10 + digitVal y4
      let mo := digitVal o1 * 10 + digitVal o2
      let d := digitVal d1 * 10 + digitVal d2
      let hh := digitVal a1 * 10 + digitVal a2
      let mi := digitVal b1 * 10 + digitVal b2
      let ss := digitVal s1 * 10 + digitVal s2
      if 1 ≤ y ∧ 1 ≤ mo ∧ mo ≤ 12 ∧ 1 ≤ d ∧ d ≤ daysInMonth y mo
          ∧ hh ≤ 23 ∧ mi ≤ 59 ∧ ss ≤ 59 then
        some (epochOfDate y mo d hh mi ss)
      else none
    else none
  | _ => none

/-- Civil date (year, month, day) of a day count since 0001-01-01
(Gregorian; the standard era-based conversion). -/
def civilFromDays (z0 : Nat) : Nat × Nat × Nat :=
  let z := z0 + 306
  let era := z / 146097
  let doe := z % 146097
  let yoe := (doe - doe / 1460 + doe / 36524 - doe / 146096) / 365
  let doy := doe - (365 * yoe + yoe / 4 - yoe / 100)
  let mp := (5 * doy + 2) / 153
  let d := doy - (153 * mp + 2) / 5 + 1
  let m := if mp < 10 then mp + 3 else mp - 9
  let y := era * 400 + yoe + (if m ≤ 2 then 1 else 0)
  (y, m, d)

/-- Zero-pad a number to two decimal digits. -/
def pad2 (n : Nat) : String :=
  if n < 10 then "0" ++ toString n else toString n

/-- Zero-pad a number to four decimal digits. -/
def pad4 (n : Nat) : String :=
  if n < 10 then "000" ++ toString n
  else if n < 100 then "00" ++ toString n
  else if n < 1000 then "0" ++ toString n
  else toString n

/-- `datetime.now().strftime("%Y-%m-%d %H:%M:%S")` at instant `t`. -/
def formatTimestamp (t : Nat) : String :=
  match civilFromDays (t / 86400) with
  | (y, m, d) =>
    pad4 y ++ "-" ++ pad2 m ++ "-" ++ pad2 d ++ " "
      ++ pad2 (t % 86400 / 3600) ++ ":" ++ pad2 (t % 3600 / 60)
      ++ ":" ++ pad2 (t % 60)

/-- `can_mark_attendance(last_time_str, cooldown_seconds)` evaluated with
the wall clock reading `now`: `True` when the timestamp fails to parse,
otherwise `True` iff the elapsed seconds strictly exceed the cooldown. -/
def can_mark_attendance (last_time_str : String) (now : Nat)
    (cooldown_seconds : Int := 30) : Bool :=
  match parseTimestamp last_time_str with
  | none => true
  | some t => (now : Int) - (t : Int) > cooldown_seconds

/-- A raw record as stored under `Students/<id>`; every field may be
absent (`app.py` applies `setdefault` to each). -/
structure RawStudent where
  name : Option String
  branch : Option String
  total_attendance : Option Nat
  last_attendance_time : Option String
deriving DecidableEq, Repr

/-- A record after the `setdefault` calls of lines 163-166. -/
structure Student where
  name : String
  branch : String
  total_attendance : Nat
  last_attendance_time : String
deriving DecidableEq, Repr

/-- The `setdefault` block: missing fields are filled with the student id,
`"N/A"`, `0` and the sentinel timestamp respectively. -/
def applyDefaults (id : String) (r : RawStudent) : Student :=
  { name := r.name.getD id
  , branch := r.branch.getD "N/A"
  , total_attendance := r.total_attendance.getD 0
  , last_attendance_time := r.last_attendance_time.getD "2000-01-01 00:00:00" }

/-- The record store (`db.reference("Students")`). -/
def StoreT : Type := String → Option RawStudent

/-- One `update` issued to the store by `update_attendance`. -/
structure WriteOp where
  id : String
  total : Nat
  time : String
deriving DecidableEq, Repr

/-- Firebase `child(id).update({...})`: partial merge of the two written
fields into the record at `id` (creating it when absent). -/
def applyWrite (store : StoreT) (w : WriteOp) : StoreT :=
  fun k =>
    if k = w.id then
      match store k with
      | some r => some { r with total_attendance := some w.total
                              , last_attendance_time := some w.time }
      | none => some ⟨none, none, some w.total, some w.time⟩
    else store k

/-- `update_attendance(student_id, student_data)`: returns the updated
store, the mutated cached record and the write that was issued. -/
def update_attendance (student_id : String) (student_data : Student)
    (store : StoreT) (now : Nat) : StoreT × Student × WriteOp :=
  let new_total := student_data.total_attendance + 1
  let w : WriteOp := ⟨student_id, new_total, formatTimestamp now⟩
  (applyWrite store w,
   { student_data with total_attendance := new_total
                     , last_attendance_time := formatTimestamp now },
   w)

/-- One detected face: the bounding box (an abstract token; coordinate
scaling is a renderer concern) together with the matcher outputs for the
gallery, `compare_faces` flags and `face_distance` values. -/
structure Face where
  box : Nat
  matchFlags : List Bool
  distances : List Rat
deriving DecidableEq, Repr

/-- `np.argmin`, tracking the current best (index, value) pair; a strict
comparison keeps the first occurrence of the minimum, as numpy does. -/
def argminAuxP : List Rat → Nat → Nat × Rat → Nat × Rat
  | [], _, p => p
  | x :: xs, i, (b, bv) =>
    if x < bv then argminAuxP xs (i + 1) (i, x) else argminAuxP xs (i + 1) (b, bv)

/-- Index of the first minimum of a list (`np.argmin`); `0` on `[]`,
where numpy raises instead. -/
def argminIdx : List Rat → Nat
  | [] => 0
  | x :: xs => (argminAuxP xs 1 (0, x)).1

/-- `matches[best_match_index]` — the acceptance test of line 133. -/
def faceAccepted (f : Face) : Bool :=
  f.matchFlags.getD (argminIdx f.distances) false

/-- The gallery id selected for an accepted face, `none` otherwise. -/
def matchedId (ids : List String) (f : Face) : Option String :=
  if faceAccepted f then some (ids.getD (argminIdx f.distances) "") else none

/-- Ids of the accepted faces of a frame, in iteration order. -/
def matchedIdsOf (ids : List String) (faces : List Face) : List String :=
  faces.filterMap (matchedId ids)

/-- The mutable loop variables touched by the per-face `for` loop of
lines 127-149, plus the draw effects it produces (`highlights` records
the `cvzone.cornerRect` calls, `checking` the transient "Checking..."
display). -/
structure LoopSt where
  active_id : Option String
  frame_counter : Nat
  current_mode : Nat
  highlights : List Nat
  checking : Bool
deriving DecidableEq, Repr

/-- Body of the per-face loop: an accepted face is highlighted and becomes
`active_id`; the first acceptance while `frame_counter == 0` shows
"Checking..." and sets `frame_counter = 1`, `current_mode = 1`. -/
def faceStep (ids : List String) (s : LoopSt) (f : Face) : LoopSt :=
  if faceAccepted f then
    let s1 : LoopSt :=
      { s with highlights := s.highlights ++ [f.box]
             , active_id := some (ids.getD (argminIdx f.distances) "") }
    if s1.frame_counter = 0 then
      { s1 with frame_counter := 1, current_mode := 1, checking := true }
    else s1
  else s

/-- The whole per-face `for` loop of one tick. -/
def faceLoop (ids : List String) (s : LoopSt) (faces : List Face) : LoopSt :=
  faces.foldl (faceStep ids) s

/-- The controller state carried across ticks by `main`'s loop
variables. -/
structure AppState where
  current_mode : Nat
  frame_counter : Nat
  active_id : Option String
  active_student : Option Student
  active_student_img : Bool
deriving DecidableEq, Repr

/-- `main`'s loop variables before the first tick. -/
def initialState : AppState := ⟨0, 0, none, none, false⟩

/-- The spec's display stages, read off the concrete state: mode 3 is the
denied ("already marked") stage, a zero counter is idle, and a running
counter is the record-display sequence. -/
inductive Stage where
  | IDLE
  | DISPLAYING
  | DENIED_COOLDOWN
deriving DecidableEq, Repr, BEq

/-- Stage abstraction of a controller state. -/
def AppState.stage (st : AppState) : Stage :=
  if st.current_mode = 3 then .DENIED_COOLDOWN
  else if st.frame_counter = 0 then .IDLE
  else .DISPLAYING

/-- Everything one tick produces: the next controller state, the store,
the writes issued, the mode images drawn onto the frame (in order),
whether the "Checking..." overlay was shown, and diagnostic prints. -/
structure TickResult where
  state : AppState
  store : StoreT
  writes : List WriteOp
  shows : List Nat
  checking : Bool
  logs : List String

/-- Loop variables entering the per-face loop of a tick. -/
def loopInit (st : AppState) : LoopSt :=
  ⟨st.active_id, st.frame_counter, st.current_mode, [], false⟩

/-- Lines 189-254: the display block guarded by `current_mode != 3`.
While the counter is at most 10 the cached record's fields and image are
rendered — subscripting `None` there raises, which the embedding reports
as an error.  The counter then advances and reaching 20 resets the
session (mode image 0, cleared record and image). -/
def displayPhase (entryMode : Nat) (store : StoreT) (writes : List WriteOp)
    (st : AppState) (checking : Bool) : Except String TickResult :=
  if st.current_mode = 3 then
    .ok ⟨st, store, writes, [entryMode], checking, []⟩
  else
    let m1 := if 10 < st.frame_counter ∧ st.frame_counter < 20 then 2
              else st.current_mode
    if st.frame_counter ≤ 10
        ∧ (st.active_student = none ∨ st.active_student_img = false) then
      .error "TypeError: NoneType object is not subscriptable"
    else if st.frame_counter + 1 ≥ 20 then
      .ok ⟨⟨0, 0, st.active_id, none, false⟩, store, writes,
           [entryMode, m1, 0], checking, []⟩
    else
      .ok ⟨⟨m1, st.frame_counter + 1, st.active_id, st.active_student,
            st.active_student_img⟩, store, writes, [entryMode, m1], checking, []⟩

/-- Lines 153-254: what a tick does after the per-face loop, given the
loop outcome `l`.  `frame_counter == 1` triggers the record fetch: an
absent record or missing photo logs and resets to idle (`continue`);
otherwise the cooldown gate either issues the attendance update or
switches to mode 3, and control falls into the display block. -/
def afterLoop (imageExists : String → Bool) (now : Nat)
    (store : StoreT) (st : AppState) (l : LoopSt) : Except String TickResult :=
  if l.frame_counter = 1 then
    match l.active_id with
    | none => .error "TypeError: reference child path must be a string"
    | some id =>
      match store id with
      | none =>
        .ok ⟨⟨0, 0, some id, none, st.active_student_img⟩, store, [],
             [st.current_mode], l.checking,
             ["No record found for student ID: " ++ id]⟩
      | some raw =>
        let stud := applyDefaults id raw
        if imageExists id = true then
          if can_mark_attendance stud.last_attendance_time now = true then
            let u := update_attendance id stud store now
            displayPhase st.current_mode u.1 [u.2.2]
              ⟨l.current_mode, l.frame_counter, some id, some u.2.1, true⟩
              l.checking
          else
            displayPhase st.current_mode store []
              ⟨3, 0, some id, some stud, true⟩ l.checking
        else
          .ok ⟨⟨0, 0, some id, some stud, st.active_student_img⟩, store, [],
               [st.current_mode], l.checking,
               ["Missing local image for " ++ id]⟩
  else
    displayPhase st.current_mode store []
      ⟨l.current_mode, l.frame_counter, l.active_id, st.active_student,
       st.active_student_img⟩ l.checking

/-- One iteration of `main`'s `while True` loop.  A failed camera read
logs and `continue`s; a frame with no faces resets mode and counter
(lines 256-258) after the background draw of line 124; otherwise the
per-face loop runs and `afterLoop` finishes the tick. -/
def tick (ids : List String) (imageExists : String → Bool) (now : Nat)
    (store : StoreT) (st : AppState) (success : Bool) (faces : List Face) :
    Except String TickResult :=
  if success then
    if faces.isEmpty then
      .ok ⟨⟨0, 0, st.active_id, st.active_student, st.active_student_img⟩,
           store, [], [st.current_mode], false, []⟩
    else
      afterLoop imageExists now store st (faceLoop ids (loopInit st) faces)
  else
    .ok ⟨st, store, [], [], false, ["Warning: Unable to read from webcam."]⟩

/-- Whether a tick completed without an uncaught exception. -/
def tickOk : Except String TickResult → Bool
  | .ok _ => true
  | .error _ => false

/-- Runs a sequence of frames through consecutive ticks (fixed gallery,
photo directory and wall clock), threading state and store; stops at an
uncaught exception. -/
def runSeq (ids : List String) (imageExists : String → Bool) (now : Nat) :
    StoreT → AppState → List (List Face) → List (Except String TickResult)
  | _, _, [] => []
  | store, st, fs :: rest =>
    match tick ids imageExists now store st true fs with
    | .ok r => .ok r :: runSeq ids imageExists now r.store r.state rest
    | .error e => [.error e]

/-- A face whose best gallery match is rejected by `compare_faces`
(single-entry gallery). -/
def face0 : Face := ⟨7, [false], [1]⟩

/-- A face accepted against a single-entry gallery. -/
def faceM : Face := ⟨7, [true], [1]⟩

/-- A face accepted as the first entry of a two-entry gallery. -/
def faceA : Face := ⟨11, [true, false], [1, 2]⟩

/-- A face accepted as the second entry of a two-entry gallery. -/
def faceB : Face := ⟨12, [false, true], [5, 2]⟩

/-- A face whose minimum-distance candidate (index 1) is rejected even
though another candidate's flag is true. -/
def faceR : Face := ⟨13, [true, false], [2, 1]⟩

/-- A cached record used by concrete test states. -/
def stud0 : Student := ⟨"Alice", "CS", 4, "2024-01-01 10:00:00"⟩

/-- The raw stored record behind `stud0`. -/
def raw0 : RawStudent := ⟨some "Alice", some "CS", some 4, some "2024-01-01 10:00:00"⟩

/-- A store holding exactly the record of student `"S001"`. -/
def store0 : StoreT := fun k => if k = "S001" then some raw0 else none

/-- A store with no records. -/
def storeEmpty : StoreT := fun _ => none

/-- A photo directory containing every student image. -/
def allImages : String → Bool := fun _ => true

/-- Per-tick well-behavedness used by the unknown-subject claim: the tick
completed, issued no write, ended in the IDLE stage and printed exactly
the unknown-record diagnostic. -/
def idleNoWriteUnknown (id : String) : Except String TickResult → Bool
  | .ok r => r.writes.isEmpty && (r.state.stage == Stage.IDLE)
      && (r.logs == ["No record found for student ID: " ++ id])
  | .error _ => false

/-- `getLast?` of a cons, phrased through `Option.or` fallbacks. -/
theorem or_getLast?_cons {α : Type} (x : α) (m : List α) (o : Option α) :
    ((x :: m).getLast?).or o = (m.getLast?).or (some x) := by
  cases m with
  | nil => simp
  | cons y ys =>
    rw [List.getLast?_cons_cons,
      List.getLast?_eq_getLast_of_ne_nil (List.cons_ne_nil y ys)]
    simp

/-- Closed form of the per-face loop: the last accepted face's gallery id
wins `active_id`, every accepted face is highlighted in order, and the
first acceptance while the counter is zero switches it to `1` together
with the mode and the "Checking..." overlay. -/
theorem faceLoop_eq (ids : List String) (faces : List Face) : ∀ s : LoopSt,
    faceLoop ids s faces =
      { active_id := ((matchedIdsOf ids faces).getLast?).or s.active_id
      , frame_counter := if matchedIdsOf ids faces = [] then s.frame_counter
          else if s.frame_counter = 0 then 1 else s.frame_counter
      , current_mode := if matchedIdsOf ids faces = [] then s.current_mode
          else if s.frame_counter = 0 then 1 else s.current_mode
      , highlights := s.highlights
          ++ (faces.filter (fun f => faceAccepted f)).map Face.box
      , checking := if matchedIdsOf ids faces = [] then s.checking
          else if s.frame_counter = 0 then true else s.checking } := by
  induction faces with
  | nil => intro s; simp [faceLoop, matchedIdsOf]
  | cons f rest ih =>
    intro s
    have hstep : faceLoop ids s (f :: rest) = faceLoop ids (faceStep ids s f) rest := rfl
    by_cases h : faceAccepted f = true
    · have hm : matchedIdsOf ids (f :: rest)
          = ids.getD (argminIdx f.distances) "" :: matchedIdsOf ids rest := by
        simp [matchedIdsOf, List.filterMap_cons, matchedId, h]
      by_cases hfc : s.frame_counter = 0
      · have hs : faceStep ids s f =
            ⟨some (ids.getD (argminIdx f.distances) ""), 1, 1,
             s.highlights ++ [f.box], true⟩ := by
          simp [faceStep, h, hfc]
        rw [hstep, hs, ih]
        simp [hm, hfc, or_getLast?_cons, List.filter_cons, h]
      · have hs : faceStep ids s f =
            ⟨some (ids.getD (argminIdx f.distances) ""), s.frame_counter,
             s.current_mode, s.highlights ++ [f.box], s.checking⟩ := by
          simp [faceStep, h, hfc]
        rw [hstep, hs, ih]
        simp [hm, hfc, or_getLast?_cons, List.filter_cons, h]
    · have h' : faceAccepted f = false := by
        cases hx : faceAccepted f
        · rfl
        · exact absurd hx h
      have hm : matchedIdsOf ids (f :: rest) = matchedIdsOf ids rest := by
        simp [matchedIdsOf, List.filterMap_cons, matchedId, h']
      have hs : faceStep ids s f = s := by simp [faceStep, h']
      rw [hstep, hs, ih]
      simp [hm, List.filter_cons, h']

/-- A frame with no accepted face leaves the loop variables unchanged. -/
theorem faceLoop_no_match (ids : List String) (faces : List Face) (s : LoopSt)
    (h : ∀ f ∈ faces, faceAccepted f = false) :
    faceLoop ids s faces = s := by
  have hm : matchedIdsOf ids faces = [] := by
    simp only [matchedIdsOf, List.filterMap_eq_nil_iff]
    intro f hf
    simp [matchedId, h f hf]
  have hfil : faces.filter (fun f => faceAccepted f) = [] := by
    simp only [List.filter_eq_nil_iff]
    intro f hf
    simp [h f hf]
  rw [faceLoop_eq, hm, hfil]
  simp

/-- When the loop leaves the counter at `1`, the mode it leaves cannot be
`3` (mode 3 states always carry a zero counter, and the loop only ever
writes mode `1`). -/
theorem loop_mode_ne_three (ids : List String) (st : AppState) (faces : List Face)
    (hInv : st.current_mode = 3 → st.frame_counter = 0)
    (hfc : (faceLoop ids (loopInit st) faces).frame_counter = 1) :
    (faceLoop ids (loopInit st) faces).current_mode ≠ 3 := by
  rw [faceLoop_eq] at hfc ⊢
  by_cases hm : matchedIdsOf ids faces = []
  · simp only [hm, if_pos rfl, loopInit] at hfc ⊢
    intro h3
    rw [hInv h3] at hfc
    exact absurd hfc (by decide)
  · simp only [hm, if_neg hm, loopInit] at hfc ⊢
    by_cases h0 : st.frame_counter = 0
    · simp [h0]
    · simp only [h0, if_neg h0] at hfc ⊢
      intro h3
      rw [hInv h3] at hfc
      exact absurd hfc (by decide)

/-- A tick on a frame with at least one face runs the per-face loop and
then `afterLoop`. -/
theorem tick_faces (ids : List String) (imageExists : String → Bool) (now : Nat)
    (store : StoreT) (st : AppState) (faces : List Face) (hne : faces ≠ []) :
    tick ids imageExists now store st true faces
      = afterLoop imageExists now store st (faceLoop ids (loopInit st) faces) := by
  cases faces with
  | nil => exact absurd rfl hne
  | cons f fs => rfl

/-- The running minimum of `argminAuxP` is a lower bound of its seed and
of every element processed. -/
theorem argminAuxP_le (xs : List Rat) : ∀ (i b : Nat) (bv : Rat),
    (argminAuxP xs i (b, bv)).2 ≤ bv
      ∧ ∀ k, k < xs.length → (argminAuxP xs i (b, bv)).2 ≤ xs.getD k 0 := by
  induction xs with
  | nil =>
    intro i b bv
    exact ⟨le_refl _, fun k hk => absurd hk (by simp)⟩
  | cons x xs ih =>
    intro i b bv
    by_cases h : x < bv
    · have hr : argminAuxP (x :: xs) i (b, bv) = argminAuxP xs (i + 1) (i, x) := by
        simp [argminAuxP, h]
      obtain ⟨h1, h2⟩ := ih (i + 1) i x
      rw [hr]
      refine ⟨le_trans h1 (le_of_lt h), ?_⟩
      intro k hk
      cases k with
      | zero => simpa using h1
      | succ k => simpa using h2 k (by simpa using hk)
    · have hr : argminAuxP (x :: xs) i (b, bv) = argminAuxP xs (i + 1) (b, bv) := by
        simp [argminAuxP, h]
      obtain ⟨h1, h2⟩ := ih (i + 1) b bv
      rw [hr]
      refine ⟨h1, ?_⟩
      intro k hk
      cases k with
      | zero => simpa using le_trans h1 (not_lt.mp h)
      | succ k => simpa using h2 k (by simpa using hk)

/-- The pair returned by `argminAuxP` is its seed or an (index, value)
pair of the processed list. -/
theorem argminAuxP_mem (xs : List Rat) : ∀ (i b : Nat) (bv : Rat),
    argminAuxP xs i (b, bv) = (b, bv)
      ∨ ∃ k, k < xs.length ∧ argminAuxP xs i (b, bv) = (i + k, xs.getD k 0) := by
  induction xs with
  | nil => intro i b bv; exact Or.inl rfl
  | cons x xs ih =>
    intro i b bv
    by_cases h : x < bv
    · have hr : argminAuxP (x :: xs) i (b, bv) = argminAuxP xs (i + 1) (i, x) := by
        simp [argminAuxP, h]
      rw [hr]
      rcases ih (i + 1) i x with h0 | ⟨k, hk, hkeq⟩
      · exact Or.inr ⟨0, by simp, by simpa using h0⟩
      · refine Or.inr ⟨k + 1, by simpa using hk, ?_⟩
        rw [hkeq]
        simp
        omega
    · have hr : argminAuxP (x :: xs) i (b, bv) = argminAuxP xs (i + 1) (b, bv) := by
        simp [argminAuxP, h]
      rw [hr]
      rcases ih (i + 1) b bv with h0 | ⟨k, hk, hkeq⟩
      · exact Or.inl h0
      · refine Or.inr ⟨k + 1, by simpa using hk, ?_⟩
        rw [hkeq]
        simp
        omega

/-- `argminIdx` really points at a first-rank minimum: it is a valid index
and its element is a lower bound of the whole list. -/
theorem argminIdx_spec (x : Rat) (xs : List Rat) :
    argminIdx (x :: xs) < (x :: xs).length
      ∧ ∀ j, j < (x :: xs).length →
          (x :: xs).getD (argminIdx (x :: xs)) 0 ≤ (x :: xs).getD j 0 := by
  have hm := argminAuxP_mem xs 1 0 x
  have hl := argminAuxP_le xs 1 0 x
  have hidx : argminIdx (x :: xs) = (argminAuxP xs 1 (0, x)).1 := rfl
  have hval : (x :: xs).getD (argminAuxP xs 1 (0, x)).1 0 = (argminAuxP xs 1 (0, x)).2 := by
    rcases hm with h0 | ⟨k, hk, hkeq⟩
    · rw [h0]
      simp
    · rw [hkeq]
      simp [Nat.add_comm 1 k]
  constructor
  · rw [hidx]
    rcases hm with h0 | ⟨k, hk, hkeq⟩
    · rw [h0]; simp
    · rw [hkeq]; simp; omega
  · intro j hj
    rw [hidx, hval]
    cases j with
    | zero => simpa using hl.1
    | succ j => simpa using hl.2 j (by simpa using hj)

/-- `can_mark_attendance` accepts when the parsed timestamp is more than
the cooldown in the past. -/
theorem can_mark_of_elapsed (s : String) (t now : Nat)
    (ht : parseTimestamp s = some t) (h : (t : Int) + 30 < (now : Int)) :
    can_mark_attendance s now = true := by
  unfold can_mark_attendance
  rw [ht]
  simp only [decide_eq_true_eq]
  omega

/-- `can_mark_attendance` rejects when the parsed timestamp is within the
cooldown window. -/
theorem cannot_mark_of_recent (s : String) (t now : Nat)
    (ht : parseTimestamp s = some t) (h : (now : Int) ≤ (t : Int) + 30) :
    can_mark_attendance s now = false := by
  unfold can_mark_attendance
  rw [ht]
  simp only [decide_eq_false_iff_not, not_lt]
  omega

/-- C3 counterexample: the "never marked" sentinel `"2000-01-01 00:00:00"`
parses successfully, and at the concrete current time 10 seconds past the
sentinel instant the cooldown gate judges a sentinel-valued record NOT
eligible — contradicting eligibility "for every possible current time". -/
theorem sentinel_denied_shortly_after_epoch :
    parseTimestamp "2000-01-01 00:00:00" = some 63082281600
    ∧ can_mark_attendance "2000-01-01 00:00:00" 63082281610 = false := by
  decide

/-- C3 (amended): a record carrying the sentinel timestamp
`"2000-01-01 00:00:00"` is judged eligible at every current time more
than the 30-second cooldown after the sentinel instant (in particular at
every realistic deployment time). -/
theorem sentinel_eligible_after_cooldown (now : Nat)
    (h : 63082281630 < now) :
    can_mark_attendance "2000-01-01 00:00:00" now = true := by
  refine can_mark_of_elapsed _ 63082281600 _ (by decide) ?_
  omega

/-- Witness for the amended C3 at the concrete time one second past the
cooldown boundary. -/
theorem sentinel_eligible_after_cooldown_witness :
    can_mark_attendance "2000-01-01 00:00:00" 63082281631 = true :=
  sentinel_eligible_after_cooldown 63082281631 (by decide)

/-- C7 counterexample: a tick with no face detected, taken from a
mid-session state, leaves `active_id`, the cached record and the cached
image untouched (only mode and counter are reset) — the session state is
not "cleared in full", `activeSubjectId` does not return to its initial
`none`. -/
theorem noface_keeps_subject_fields :
    (tick ["S001"] allImages 0 store0 ⟨1, 5, some "S001", some stud0, true⟩
        true []).toOption.map TickResult.state
      = some ⟨0, 0, some "S001", some stud0, true⟩
    ∧ (tick ["S001"] allImages 0 store0 ⟨1, 5, some "S001", some stud0, true⟩
        true []).toOption.map (fun r => r.state.active_id) ≠ some none := by
  decide

/-- C7 (amended): from every stage, a tick with no face detected resets
`current_mode` and `frame_counter` to their initial zeros (hence the IDLE
stage) but retains `active_id`, the cached record and the cached image;
it performs no store write and the background keeps the entering mode
image. -/
theorem noface_resets_mode_counter_only (ids : List String)
    (imageExists : String → Bool) (now : Nat) (store : StoreT) (st : AppState) :
    tick ids imageExists now store st true []
      = .ok ⟨⟨0, 0, st.active_id, st.active_student, st.active_student_img⟩,
             store, [], [st.current_mode], false, []⟩ := rfl

/-- C5 counterexample: from the DENIED_COOLDOWN stage (mode 3), a tick
whose detected face is not accepted by the matcher leaves the controller
in DENIED_COOLDOWN — the stage is occupied for more than one tick and its
successor is not IDLE. -/
theorem denied_state_persists_on_unmatched_face :
    (tick ["S001"] allImages 0 store0 ⟨3, 0, some "S001", some stud0, true⟩
        true [face0]).toOption.map (fun r => r.state.stage)
      = some Stage.DENIED_COOLDOWN := by
  decide

/-- C5 (amended): from the DENIED_COOLDOWN stage, a tick with no face
detected transitions to IDLE by resetting mode and counter, retaining
`active_id` and the cached record; the "already marked" mode image
(index 3) is the one drawn onto the background during that tick.  Ticks
with detected faces need not leave DENIED_COOLDOWN. -/
theorem denied_noface_next_tick_idle (ids : List String)
    (imageExists : String → Bool) (now : Nat) (store : StoreT) (st : AppState)
    (h3 : st.current_mode = 3) :
    tick ids imageExists now store st true []
      = .ok ⟨⟨0, 0, st.active_id, st.active_student, st.active_student_img⟩,
             store, [], [3], false, []⟩ := by
  have h : tick ids imageExists now store st true []
      = .ok ⟨⟨0, 0, st.active_id, st.active_student, st.active_student_img⟩,
             store, [], [st.current_mode], false, []⟩ := rfl
  rw [h, h3]

/-- Witness for the amended C5 at a concrete denied-stage state. -/
theorem denied_noface_next_tick_idle_witness :
    tick ["S001"] allImages 0 store0 ⟨3, 0, some "S001", some stud0, true⟩ true []
      = .ok ⟨⟨0, 0, some "S001", some stud0, true⟩, store0, [], [3], false, []⟩ :=
  denied_noface_next_tick_idle ["S001"] allImages 0 store0
    ⟨3, 0, some "S001", some stud0, true⟩ rfl

/-- C6 counterexample: with the session counter having reached 10 in the
DISPLAYING stage and detection continuing, the next tick does NOT reset
to IDLE: the controller stays in DISPLAYING with counter 11 and the
cached record intact (the code's reset threshold is 20, not 10). -/
theorem displaying_not_reset_at_ten :
    (tick ["S001"] allImages 0 storeEmpty ⟨1, 10, some "S001", some stud0, true⟩
        true [faceM]).toOption.map TickResult.state
      = some ⟨1, 11, some "S001", some stud0, true⟩ := by
  decide

/-- C10 (code bug): from the initial controller state, a tick in which a
face is detected but its minimum-distance candidate's match flag is false
does not complete: the render branch (counter ≤ 10, mode ≠ 3) subscripts
the unset `active_student`, raising a TypeError and killing the loop —
against the spec's requirement that no input terminates the process. -/
theorem unmatched_face_initial_state_crashes :
    faceAccepted face0 = false
    ∧ tickOk (tick ["S001"] allImages 0 storeEmpty initialState true [face0])
        = false := by
  decide

/-- C8: identity selection first computes the minimum-distance candidate
(`argminIdx` is a valid index whose distance is a lower bound over the
whole gallery) and the face is accepted exactly when that candidate's
binary match flag is true, with no reference to the margin over the
runner-up. -/
theorem best_match_min_distance_gate (f : Face) (h : f.distances ≠ []) :
    argminIdx f.distances < f.distances.length
    ∧ (∀ j, j < f.distances.length →
        f.distances.getD (argminIdx f.distances) 0 ≤ f.distances.getD j 0)
    ∧ faceAccepted f = f.matchFlags.getD (argminIdx f.distances) false := by
  obtain ⟨x, xs, hx⟩ := List.exists_cons_of_ne_nil h
  refine ⟨?_, ?_, rfl⟩
  · rw [hx]; exact (argminIdx_spec x xs).1
  · rw [hx]; exact (argminIdx_spec x xs).2

/-- Witness for C8 on a concrete face whose closest candidate (index 1)
is rejected although the runner-up's flag is true. -/
theorem best_match_min_distance_gate_witness :
    argminIdx faceR.distances < faceR.distances.length
    ∧ (∀ j, j < faceR.distances.length →
        faceR.distances.getD (argminIdx faceR.distances) 0
          ≤ faceR.distances.getD j 0)
    ∧ faceAccepted faceR = faceR.matchFlags.getD (argminIdx faceR.distances) false :=
  best_match_min_distance_gate faceR (by decide)

/-- C9: when at least two faces of a frame pass the match check, the loop
leaves `active_id` equal to the matched id of the LAST accepted face in
iteration order (earlier ids are overwritten), while every accepted face
still received its bounding-box highlight, in order. -/
theorem last_matched_face_wins (ids : List String) (s : LoopSt) (faces : List Face)
    (h2 : 2 ≤ (matchedIdsOf ids faces).length) :
    (faceLoop ids s faces).active_id = (matchedIdsOf ids faces).getLast?
    ∧ (faceLoop ids s faces).highlights
        = s.highlights ++ (faces.filter (fun f => faceAccepted f)).map Face.box := by
  have hne : matchedIdsOf ids faces ≠ [] := by
    intro h
    rw [h] at h2
    exact absurd h2 (by decide)
  rw [faceLoop_eq]
  refine ⟨?_, rfl⟩
  rw [List.getLast?_eq_getLast_of_ne_nil hne]
  simp

/-- Witness for C9: two accepted faces against a two-entry gallery; the
second face's id wins, both boxes are highlighted. -/
theorem last_matched_face_wins_witness :
    (faceLoop ["A", "B"] ⟨none, 0, 0, [], false⟩ [faceA, faceB]).active_id
        = (matchedIdsOf ["A", "B"] [faceA, faceB]).getLast?
    ∧ (faceLoop ["A", "B"] ⟨none, 0, 0, [], false⟩ [faceA, faceB]).highlights
        = [] ++ (([faceA, faceB].filter (fun f => faceAccepted f)).map Face.box) :=
  last_matched_face_wins ["A", "B"] ⟨none, 0, 0, [], false⟩ [faceA, faceB] (by decide)

/-- C2: when the cooldown gate is reached (loop counter 1, record fetched,
photo present) and the cached record's timestamp parses to an instant at
most 30 seconds before the current time, the tick issues no write, leaves
the store untouched, caches the fetched record and ends in the
DENIED_COOLDOWN stage (mode 3, counter 0). -/
theorem cooldown_reject_no_mutation
    (ids : List String) (imageExists : String → Bool) (now : Nat)
    (store : StoreT) (st : AppState) (faces : List Face)
    (id : String) (raw : RawStudent) (t : Nat)
    (hne : faces ≠ [])
    (hl1 : (faceLoop ids (loopInit st) faces).frame_counter = 1)
    (hlid : (faceLoop ids (loopInit st) faces).active_id = some id)
    (hrec : store id = some raw)
    (himg : imageExists id = true)
    (ht : parseTimestamp (applyDefaults id raw).last_attendance_time = some t)
    (hrecent : (now : Int) ≤ (t : Int) + 30) :
    ∃ r, tick ids imageExists now store st true faces = .ok r
      ∧ r.writes = []
      ∧ r.store = store
      ∧ r.state = ⟨3, 0, some id, some (applyDefaults id raw), true⟩
      ∧ r.state.stage = Stage.DENIED_COOLDOWN := by
  have hcm := cannot_mark_of_recent _ t now ht hrecent
  rw [tick_faces ids imageExists now store st faces hne]
  unfold afterLoop
  simp only [hl1, hlid, reduceIte]
  rw [hrec]
  simp only [himg, hcm, reduceIte]
  exact ⟨_, rfl, rfl, rfl, rfl, rfl⟩

/-- C1: when the cooldown gate is reached and the cached record's
timestamp parses to an instant more than 30 seconds in the past, the tick
issues exactly one store update, which increments `total_attendance` by
exactly 1 and sets `last_attendance_time` to the formatted current time;
every other key is untouched, the cached record equals the defaulted view
of the stored record, and the controller ends in the DISPLAYING stage
with counter 2. -/
theorem accepted_mark_single_update
    (ids : List String) (imageExists : String → Bool) (now : Nat)
    (store : StoreT) (st : AppState) (faces : List Face)
    (id : String) (raw : RawStudent) (t : Nat)
    (hInv : st.current_mode = 3 → st.frame_counter = 0)
    (hne : faces ≠ [])
    (hl1 : (faceLoop ids (loopInit st) faces).frame_counter = 1)
    (hlid : (faceLoop ids (loopInit st) faces).active_id = some id)
    (hrec : store id = some raw)
    (himg : imageExists id = true)
    (ht : parseTimestamp (applyDefaults id raw).last_attendance_time = some t)
    (helapsed : (t : Int) + 30 < (now : Int)) :
    ∃ r, tick ids imageExists now store st true faces = .ok r
      ∧ r.writes = [⟨id, (applyDefaults id raw).total_attendance + 1,
          formatTimestamp now⟩]
      ∧ r.store id = some { raw with
          total_attendance := some ((applyDefaults id raw).total_attendance + 1),
          last_attendance_time := some (formatTimestamp now) }
      ∧ (∀ k, k ≠ id → r.store k = store k)
      ∧ r.state.active_student = some { applyDefaults id raw with
          total_attendance := (applyDefaults id raw).total_attendance + 1,
          last_attendance_time := formatTimestamp now }
      ∧ (∀ raw', r.store id = some raw' →
          some (applyDefaults id raw') = r.state.active_student)
      ∧ r.state.stage = Stage.DISPLAYING
      ∧ r.state.frame_counter = 2 := by
  have hcm := can_mark_of_elapsed (applyDefaults id raw).last_attendance_time
    t now ht helapsed
  have hm3 := loop_mode_ne_three ids st faces hInv hl1
  rw [tick_faces ids imageExists now store st faces hne]
  unfold afterLoop
  simp only [hl1, hlid, reduceIte]
  rw [hrec]
  simp only [himg, hcm, reduceIte]
  unfold update_attendance displayPhase
  simp only [hl1, hm3, reduceIte]
  refine ⟨_, rfl, rfl, ?_, ?_, rfl, ?_, ?_, rfl⟩
  · simp [applyWrite, hrec]
  · intro k hk
    simp [applyWrite, hk]
  · intro raw' hraw'
    simp only [applyWrite, if_pos rfl, hrec] at hraw'
    have : raw' = { raw with
        total_attendance := some ((applyDefaults id raw).total_attendance + 1),
        last_attendance_time := some (formatTimestamp now) } := by
      cases hraw'.symm
      rfl
    rw [this]
    rfl
  · simp [AppState.stage, hm3]

/-- Witness for C2: student `"S001"` last marked at 2024-01-01 10:00:00,
matched again 10 seconds later — no write, store untouched, mode 3. -/
theorem cooldown_reject_no_mutation_witness :
    ∃ r, tick ["S001"] allImages 63839700010 store0 initialState true [faceM]
        = .ok r
      ∧ r.writes = []
      ∧ r.store = store0
      ∧ r.state = ⟨3, 0, some "S001", some (applyDefaults "S001" raw0), true⟩
      ∧ r.state.stage = Stage.DENIED_COOLDOWN :=
  cooldown_reject_no_mutation ["S001"] allImages 63839700010 store0 initialState
    [faceM] "S001" raw0 63839700000 (by decide) (by decide) (by decide)
    (by decide) rfl (by decide) (by decide)

/-- Witness for C1: student `"S001"` last marked at 2024-01-01 10:00:00,
matched again 100 seconds later — one write incrementing the count to 5
with the fresh timestamp, cache matching the store, stage DISPLAYING. -/
theorem accepted_mark_single_update_witness :
    ∃ r, tick ["S001"] allImages 63839700100 store0 initialState true [faceM]
        = .ok r
      ∧ r.writes = [⟨"S001", (applyDefaults "S001" raw0).total_attendance + 1,
          formatTimestamp 63839700100⟩]
      ∧ r.store "S001" = some { raw0 with
          total_attendance := some ((applyDefaults "S001" raw0).total_attendance + 1),
          last_attendance_time := some (formatTimestamp 63839700100) }
      ∧ (∀ k, k ≠ "S001" → r.store k = store0 k)
      ∧ r.state.active_student = some { applyDefaults "S001" raw0 with
          total_attendance := (applyDefaults "S001" raw0).total_attendance + 1,
          last_attendance_time := formatTimestamp 63839700100 }
      ∧ (∀ raw', r.store "S001" = some raw' →
          some (applyDefaults "S001" raw') = r.state.active_student)
      ∧ r.state.stage = Stage.DISPLAYING
      ∧ r.state.frame_counter = 2 :=
  accepted_mark_single_update ["S001"] allImages 63839700100 store0 initialState
    [faceM] "S001" raw0 63839700000 (by intro h; exact absurd h (by decide))
    (by decide) (by decide) (by decide) (by decide) rfl (by decide) (by decide)

/-- C6 (amended): the reset of a record-display session happens when the
counter reaches 20, not 10: from any non-denied state with counter 19 and
continued detection, the tick resets mode and counter to 0, clears the
cached record and image (`active_id` is retained), issues no write, and
draws the idle mode image last. -/
theorem displaying_resets_at_twenty (ids : List String)
    (imageExists : String → Bool) (now : Nat) (store : StoreT) (st : AppState)
    (faces : List Face)
    (h3 : st.current_mode ≠ 3) (hfc : st.frame_counter = 19) (hne : faces ≠ []) :
    ∃ r, tick ids imageExists now store st true faces = .ok r
      ∧ r.state = ⟨0, 0, (faceLoop ids (loopInit st) faces).active_id, none, false⟩
      ∧ r.writes = []
      ∧ r.store = store
      ∧ r.shows = [st.current_mode, 2, 0]
      ∧ r.state.stage = Stage.IDLE := by
  have hlf : (faceLoop ids (loopInit st) faces).frame_counter = 19 := by
    rw [faceLoop_eq]
    simp [loopInit, hfc]
  have hlm : (faceLoop ids (loopInit st) faces).current_mode = st.current_mode := by
    rw [faceLoop_eq]
    simp [loopInit, hfc]
  rw [tick_faces ids imageExists now store st faces hne]
  unfold afterLoop
  simp only [hlf, reduceIte]
  unfold displayPhase
  simp only [hlm, reduceIte]
  rw [if_neg h3]
  exact ⟨_, rfl, rfl, rfl, rfl, rfl, rfl⟩

/-- Witness for the amended C6 from a concrete counter-19 session. -/
theorem displaying_resets_at_twenty_witness :
    ∃ r, tick ["S001"] allImages 0 storeEmpty
        ⟨1, 19, some "S001", some stud0, true⟩ true [faceM] = .ok r
      ∧ r.state = ⟨0, 0,
          (faceLoop ["S001"]
            (loopInit ⟨1, 19, some "S001", some stud0, true⟩) [faceM]).active_id,
          none, false⟩
      ∧ r.writes = []
      ∧ r.store = storeEmpty
      ∧ r.shows = [1, 2, 0]
      ∧ r.state.stage = Stage.IDLE :=
  displaying_resets_at_twenty ["S001"] allImages 0 storeEmpty
    ⟨1, 19, some "S001", some stud0, true⟩ [faceM] (by decide) rfl (by decide)

/-- A tick whose frame matches an id absent from the store (entered with
a zero counter) logs the diagnostic, caches nothing, resets mode and
counter and leaves the store untouched. -/
theorem unknown_tick_eq (ids : List String) (imageExists : String → Bool)
    (now : Nat) (store : StoreT) (st : AppState) (faces : List Face) (id : String)
    (h0 : st.frame_counter = 0)
    (habs : store id = none)
    (hmatch : (matchedIdsOf ids faces).getLast? = some id) :
    tick ids imageExists now store st true faces
      = .ok ⟨⟨0, 0, some id, none, st.active_student_img⟩, store, [],
             [st.current_mode], true, ["No record found for student ID: " ++ id]⟩ := by
  have hnil : matchedIdsOf ids faces ≠ [] := by
    intro h
    rw [h] at hmatch
    exact absurd hmatch (by simp)
  have hne : faces ≠ [] := by
    intro h
    apply hnil
    rw [h]
    rfl
  have hlf : (faceLoop ids (loopInit st) faces).frame_counter = 1 := by
    rw [faceLoop_eq]
    simp [loopInit, hnil, h0]
  have hlid : (faceLoop ids (loopInit st) faces).active_id = some id := by
    rw [faceLoop_eq]
    simp [loopInit, hmatch]
  have hlc : (faceLoop ids (loopInit st) faces).checking = true := by
    rw [faceLoop_eq]
    simp [loopInit, hnil, h0]
  rw [tick_faces ids imageExists now store st faces hne]
  unfold afterLoop
  simp only [hlf, hlid, hlc, reduceIte]
  rw [habs]

/-- C4: for an id absent from the store, any sequence of frames whose
matches select that id — started with the stage counter at zero — makes
every tick complete in the IDLE stage with no store write and exactly the
unknown-record diagnostic; the absent id never acquires a record. -/
theorem unknown_subject_ticks_idle_no_write (ids : List String)
    (imageExists : String → Bool) (now : Nat) (id : String) :
    ∀ (inputs : List (List Face)) (store : StoreT) (st : AppState),
      store id = none → st.frame_counter = 0 →
      (∀ fs ∈ inputs, (matchedIdsOf ids fs).getLast? = some id) →
      (runSeq ids imageExists now store st inputs).all (idleNoWriteUnknown id)
        = true := by
  intro inputs
  induction inputs with
  | nil => intro store st _ _ _; rfl
  | cons fs rest ih =>
    intro store st habs h0 hm
    have h1 := unknown_tick_eq ids imageExists now store st fs id h0 habs
      (hm fs (List.mem_cons_self fs rest))
    unfold runSeq
    rw [h1]
    simp only [List.all_cons, Bool.and_eq_true]
    constructor
    · simp [idleNoWriteUnknown, AppState.stage]
      decide
    · exact ih store ⟨0, 0, some id, none, st.active_student_img⟩ habs rfl
        (fun fs2 hf => hm fs2 (List.mem_cons_of_mem _ hf))

/-- Witness for C4: two consecutive frames matching the unknown id
`"S001"` against an empty store. -/
theorem unknown_subject_ticks_idle_no_write_witness :
    (runSeq ["S001"] allImages 0 storeEmpty initialState
        [[faceM], [faceM]]).all (idleNoWriteUnknown "S001") = true :=
  unknown_subject_ticks_idle_no_write ["S001"] allImages 0 "S001"
    [[faceM], [faceM]] storeEmpty initialState rfl rfl (by decide)
